import Mathlib

/-!
# Verification of `validate-kata-deploy-options.py`

A shallow embedding, in Lean 4, of the CI script
`.github/scripts/validate-kata-deploy-options.py` from the
`confidential-containers/charts` repository, together with theorems settling
the specification claims about it.

The script parses the upstream kata-deploy chart's `values.yaml` into a nested
mapping, flattens it into a list of `ConfigOption` leaves, checks a text corpus
(the downstream chart's own `values.yaml` plus documentation files) for
mentions of each option, renders a report, and sets the process exit status.

Modelling conventions:
* YAML values loaded by `yaml.safe_load` are modelled by the inductive `Value`.
  Mappings are association lists in insertion order (Python dicts preserve
  insertion order; keys are unique).  Floating-point scalars are not modelled:
  no claim involves them.
* Python exceptions and `sys.exit` are modelled with `Except` / an explicit
  `RunResult` type; `print` side effects are not modelled.
* `re.search` with `re.IGNORECASE` is modelled by executable scanners over
  `List Char` after lowercasing both corpus and pattern (all patterns are
  passed through `re.escape` in the script, so they are matched literally).
-/

set_option maxRecDepth 10000

namespace KataValidate

/-- A YAML value as produced by `yaml.safe_load`.  Mappings are association
lists of string keys in insertion order.  (YAML floating-point scalars are not
modelled; no claim involves them.) -/
inductive Value where
  | nullV
  | boolV (b : Bool)
  | intV (n : Int)
  | strV (s : String)
  | listV (xs : List Value)
  | dictV (entries : List (String × Value))

/-- `type(value).__name__` for the modelled Python values. -/
def typeName : Value → String
  | .nullV => "NoneType"
  | .boolV _ => "bool"
  | .intV _ => "int"
  | .strV _ => "str"
  | .listV _ => "list"
  | .dictV _ => "dict"

/-- Whether a value is a Python `dict` (`isinstance(value, dict)`). -/
def Value.isDict : Value → Bool
  | .dictV _ => true
  | _ => false

/-- First-match lookup in an association list: `d.get(key)` on a dict with
unique keys. -/
def lookupV (key : String) : List (String × Value) → Option Value
  | [] => none
  | (k, v) :: rest => if k = key then some v else lookupV key rest

/-- Python `key.startswith('_')`: the key begins with the reserved
internal-marker prefix used for YAML anchors and internal keys.  (Implemented
on the character list so that it evaluates inside the kernel.) -/
def underscoreKey (s : String) : Bool :=
  match s.data with
  | [] => false
  | c :: _ => c = '_'

/-- The `ConfigOption` dataclass of the script. -/
structure ConfigOption where
  name : String
  path : String
  type : String
  default : Value
  description : String := ""
  documented_in : List String := []

mutual

/-- The inner recursive function `extract_options(data, parent_path)` of
`parse_kata_deploy_values`: for a mapping, walk its entries; any other value
contributes nothing at the top level. -/
def extract_options (exclude_options : List String) (data : Value)
    (parent_path : String) : List ConfigOption :=
  match data with
  | .dictV entries => extractEntries exclude_options entries parent_path
  | _ => []
termination_by structural data

/-- The `for key, value in data.items()` loop body of `extract_options`:
build `current_path`, skip keys starting with `_` and excluded paths, recurse
into nested dicts, and emit a `ConfigOption` for every other value. -/
def extractEntries (exclude_options : List String) :
    List (String × Value) → String → List ConfigOption
  | [], _ => []
  | (key, value) :: rest, parent_path =>
    let current_path := if parent_path = "" then key else parent_path ++ "." ++ key
    (if underscoreKey key then []
     else if current_path ∈ exclude_options then []
     else
       match value with
       | .dictV _ => extract_options exclude_options value current_path
       | _ => [{ name := key, path := current_path, type := typeName value,
                 default := value }]) ++
    extractEntries exclude_options rest parent_path
termination_by structural entries _ => entries

end

/-- The dotted-path join performed by the successive `current_path`
assignments along a chain of keys: starting from `parent_path`, append each
key with a dot (or start from the key itself when the accumulated path is
empty). -/
def joinPath (parent_path : String) (keys : List String) : String :=
  keys.foldl (fun p k => if p = "" then k else p ++ "." ++ k) parent_path

/-! ## The documentation checker (`check_documentation`)

The script searches a text corpus with `re.search(p, all_content, re.IGNORECASE)`
for five regular expressions built from the `re.escape`d candidate pattern.
They are modelled by executable scanners over `List Char`.  Both the corpus
and the pattern are lowercased first, which is exactly what `re.IGNORECASE`
amounts to for these escaped-literal patterns. -/

/-- Python's `\s` character class: `[ \t\n\r\f\v]`. -/
def pyIsSpace (c : Char) : Bool :=
  c = ' ' || c = '\t' || c = '\n' || c = '\r' || c = '\x0b' || c = '\x0c'

/-- If `p` is literally a prefix of `l`, return the remainder. -/
def stripLit : List Char → List Char → Option (List Char)
  | [], l => some l
  | _ :: _, [] => none
  | a :: p, b :: l => if a = b then stripLit p l else none

/-- Regex `\s*` followed by a continuation: succeeds if the continuation
matches after consuming any number of whitespace characters. -/
def wsStarThen (k : List Char → Bool) : List Char → Bool
  | [] => k []
  | c :: rest => k (c :: rest) || (pyIsSpace c && wsStarThen k rest)

/-- Regex `.*` followed by a continuation: succeeds if the continuation
matches after consuming any number of non-newline characters. -/
def dotStarThen (k : List Char → Bool) : List Char → Bool
  | [] => k []
  | c :: rest => k (c :: rest) || (c ≠ '\n' && dotStarThen k rest)

/-- `re.search`: try the position matcher at every position of the corpus. -/
def scanFor (m : List Char → Bool) : List Char → Bool
  | [] => m []
  | l@(_ :: rest) => m l || scanFor m rest

/-- Regex `#.*{p}`: a `#` comment marker followed on the same line by the
pattern. -/
def commentMatch (p corpus : List Char) : Bool :=
  scanFor (fun l =>
    match l with
    | '#' :: rest => dotStarThen (fun r => (stripLit p r).isSome) rest
    | _ => false) corpus

/-- Regex `{p}\s*:`: the pattern used as a YAML key (colon after optional
whitespace). -/
def keyMatch (p corpus : List Char) : Bool :=
  scanFor (fun l =>
    match stripLit p l with
    | some r => wsStarThen (fun r2 =>
        match r2 with
        | ':' :: _ => true
        | _ => false) r
    | none => false) corpus

/-- Regex `` `{p}` ``: the pattern wrapped in single backticks. -/
def backtickMatch (p corpus : List Char) : Bool :=
  scanFor (fun l =>
    match stripLit (Char.ofNat 96 :: (p ++ [Char.ofNat 96])) l with
    | some _ => true
    | none => false) corpus

/-- Regex `--set.*{p}`: the pattern on the same line after a `--set` CLI
flag. -/
def setMatch (p corpus : List Char) : Bool :=
  scanFor (fun l =>
    match stripLit ['-', '-', 's', 'e', 't'] l with
    | some r => dotStarThen (fun r2 => (stripLit p r2).isSome) r
    | none => false) corpus

/-- Regex `\|\s*{p}\s*\|`: the pattern as a cell of a pipe-delimited table
row. -/
def tableMatch (p corpus : List Char) : Bool :=
  scanFor (fun l =>
    match l with
    | '|' :: rest => wsStarThen (fun r =>
        match stripLit p r with
        | some r2 => wsStarThen (fun r3 =>
            match r3 with
            | '|' :: _ => true
            | _ => false) r2
        | none => false) rest
    | _ => false) corpus

/-- The lowercased character list of a string (`re.IGNORECASE` folding). -/
def lowerChars (s : String) : List Char :=
  s.data.map Char.toLower

/-- The inner `for search_pattern in search_patterns` loop: the candidate
pattern is mentioned in the corpus if any of the five search regexes matches,
tried in the order they appear in the script, case-insensitively. -/
def mentioned (corpus pattern : String) : Bool :=
  let c := lowerChars corpus
  let p := lowerChars pattern
  commentMatch p c || keyMatch p c || backtickMatch p c || setMatch p c ||
    tableMatch p c

/-- The outer `for pattern in patterns` loop with its `if found: break`:
return the first candidate pattern mentioned in the corpus, if any. -/
def firstFound (corpus : String) : List String → Option String
  | [] => none
  | p :: ps => if mentioned corpus p then some p else firstFound corpus ps

/-- The candidate patterns for one option, in the priority order of the
script: namespace-prefixed path, bare path, bare final key name. -/
def candidatePatterns (subchart_alias : String) (o : ConfigOption) :
    List String :=
  [subchart_alias ++ "." ++ o.path, o.path, o.name]

/-- The per-option body of `check_documentation`: classify one option and
record the matching pattern in `documented_in` (Python's `set.add`; at most
one pattern is ever added per run, so the set is modelled as a list). -/
def checkOne (corpus subchart_alias : String) (o : ConfigOption) :
    ConfigOption × Bool :=
  match firstFound corpus (candidatePatterns subchart_alias o) with
  | some p => ({ o with documented_in := o.documented_in ++ [p] }, true)
  | none => (o, false)

/-- `check_documentation`, after the corpus has been built: partition the
options into `(documented, undocumented)`, preserving input order. -/
def check_documentation (corpus subchart_alias : String) :
    List ConfigOption → List ConfigOption × List ConfigOption
  | [] => ([], [])
  | o :: rest =>
    let (d, u) := check_documentation corpus subchart_alias rest
    match checkOne corpus subchart_alias o with
    | (o2, true) => (o2 :: d, u)
    | (o2, false) => (d, o2 :: u)

/-- Corpus construction in `check_documentation`: concatenate our values file
(if it exists) and every documentation file that exists, each followed by a
newline; missing files are silently skipped. -/
def buildCorpus (our_values : Option String) (doc_files : List (Option String)) :
    String :=
  doc_files.foldl
    (fun acc d =>
      match d with
      | some s => acc ++ s ++ "\n"
      | none => acc)
    (match our_values with
     | some s => s ++ "\n"
     | none => "")

/-! ## The description resolver

`parse_kata_deploy_values` looks the option path up in the upstream README's
configuration reference table with the regex
`\|\s*`? path `?\s*\|([^|]+)\|` (case-insensitive), and stores the stripped
first capture group as the option's description. -/

/-- Case-insensitive literal prefix: if `p` matches the head of `l` up to
`Char.toLower`, return the remainder. -/
def ciStrip : List Char → List Char → Option (List Char)
  | [], l => some l
  | _ :: _, [] => none
  | a :: p, b :: l => if a.toLower = b.toLower then ciStrip p l else none

/-- Greedy `\s*` followed by an `Option`-valued continuation. -/
def wsStarThenO (k : List Char → Option (List Char)) :
    List Char → Option (List Char)
  | [] => k []
  | c :: rest =>
    if pyIsSpace c then
      match wsStarThenO k rest with
      | some r => some r
      | none => k (c :: rest)
    else k (c :: rest)

/-- `re.search` for a capturing matcher: try every position from the left and
return the first capture. -/
def scanO (m : List Char → Option (List Char)) :
    List Char → Option (List Char)
  | [] => m []
  | l@(_ :: rest) =>
    match m l with
    | some r => some r
    | none => scanO m rest

/-- The capture group `([^|]+)\|`: the nonempty run of non-pipe characters up
to the next pipe. -/
def captureCell (l : List Char) : Option (List Char) :=
  let grp := l.takeWhile (fun c => c ≠ '|')
  if grp.isEmpty then none
  else
    match l.drop grp.length with
    | '|' :: _ => some grp
    | _ => none

/-- The description regex anchored at one position:
`\|\s*` then an optional backtick, the path (case-insensitively), an optional
backtick, `\s*\|`, and the captured description cell. -/
def descMatchAt (path : List Char) : List Char → Option (List Char)
  | '|' :: rest =>
    wsStarThenO (fun r1 =>
      let afterPath : List Char → Option (List Char) := fun r3 =>
        wsStarThenO (fun r4 =>
          match r4 with
          | '|' :: r5 => captureCell r5
          | _ => none) r3
      let tryPath : List Char → Option (List Char) := fun r =>
        match ciStrip path r with
        | some r2 =>
          (match r2 with
           | c :: r3 =>
             if c = Char.ofNat 96 then
               match afterPath r3 with
               | some g => some g
               | none => afterPath r2
             else afterPath r2
           | [] => afterPath r2)
        | none => none
      match r1 with
      | c :: r2 =>
        if c = Char.ofNat 96 then
          match tryPath r2 with
          | some g => some g
          | none => tryPath r1
        else tryPath r1
      | [] => tryPath r1) rest
  | _ => none

/-- Python `str.strip()`: remove leading and trailing whitespace. -/
def pyStrip (s : String) : String :=
  String.mk (((s.data.dropWhile pyIsSpace).reverse.dropWhile pyIsSpace).reverse)

/-- The `for option in options` description loop body: set `description` to
the stripped capture of the first table-row match for the option's path, if
any. -/
def resolveDescription (readme_content : String) (o : ConfigOption) :
    ConfigOption :=
  match scanO (descMatchAt o.path.data) readme_content.data with
  | some grp => { o with description := pyStrip (String.mk grp) }
  | none => o

/-- Python truthiness (`elif kata_version:`) for the modelled values. -/
def pyTruthy : Value → Bool
  | .nullV => false
  | .boolV b => b
  | .intV n => n ≠ 0
  | .strV s => s ≠ ""
  | .listV xs => ¬ xs.isEmpty
  | .dictV es => ¬ es.isEmpty

/-- The file-system and network inputs of one run of the script. -/
structure World where
  /-- content of `Chart.yaml` in the working directory, if the file exists -/
  chartYaml : Option Value
  /-- content of `<chart>/values.yaml`, if the file exists -/
  kataValues : Option Value
  /-- content of `<chart>/README.md`, if the file exists -/
  kataReadme : Option String
  /-- body answered by the GitHub README fetch, if any (network failures and
  non-200 answers are `none`) -/
  githubReadme : Option String
  /-- content of the `--our-values` file, if it exists -/
  ourValues : Option String
  /-- contents of the `--our-docs` files (existing files only are read) -/
  ourDocs : List (Option String)
  /-- `Path('/tmp').stat().st_mtime` rendered by the report's f-string -/
  tmpMtime : String

/-- `parse_kata_deploy_values`: exit with status 1 when `values.yaml` is
missing; otherwise extract the options and, when a README is available
(locally, or from GitHub when the version is truthy), resolve descriptions. -/
def parse_kata_deploy_values (w : World) (kata_version : Value)
    (exclude_options : List String) : Except Nat (List ConfigOption) :=
  match w.kataValues with
  | none => .error 1
  | some values =>
    let options := extract_options exclude_options values ""
    let readme_content : Option String :=
      match w.kataReadme with
      | some s => some s
      | none => if pyTruthy kata_version then w.githubReadme else none
    match readme_content with
    | some content => .ok (options.map (resolveDescription content))
    | none => .ok options

/-! ## Python `str()` of the modelled values (for the report) -/

mutual

/-- Python `repr` for the modelled values (string quoting and escaping edge
cases inside container literals are simplified to plain single quotes). -/
def pyRepr : Value → String
  | .nullV => "None"
  | .boolV true => "True"
  | .boolV false => "False"
  | .intV n => toString n
  | .strV s => String.singleton (Char.ofNat 39) ++ s ++ String.singleton (Char.ofNat 39)
  | .listV xs => "[" ++ pyReprList xs ++ "]"
  | .dictV es => "\x7b" ++ pyReprEntries es ++ "\x7d"
termination_by structural v => v

/-- `", ".join(map(repr, xs))` for list elements. -/
def pyReprList : List Value → String
  | [] => ""
  | [x] => pyRepr x
  | x :: rest => pyRepr x ++ ", " ++ pyReprList rest
termination_by structural xs => xs

/-- The element renderings of a dict literal. -/
def pyReprEntries : List (String × Value) → String
  | [] => ""
  | [(k, v)] =>
    String.singleton (Char.ofNat 39) ++ k ++ String.singleton (Char.ofNat 39) ++ ": " ++ pyRepr v
  | (k, v) :: rest =>
    String.singleton (Char.ofNat 39) ++ k ++ String.singleton (Char.ofNat 39) ++ ": " ++ pyRepr v ++
      ", " ++ pyReprEntries rest
termination_by structural es => es

end

/-- Python `str()`: identity on strings, `repr` otherwise (which coincides
with `str` on the remaining kinds). -/
def pyStr : Value → String
  | .strV s => s
  | v => pyRepr v

/-! ## The report generator (`generate_report`) -/

/-- The f-string expression
`len(documented) / (len(documented) + len(undocumented)) * 100` rendered with
`:.1f`.  When both counts are zero Python raises `ZeroDivisionError`, which
aborts report generation; this is modelled by `Except.error`.  (The `:.1f`
float formatting is approximated by rounding the exact rational to one
decimal; no claim depends on tie-breaking of the float rounding.) -/
def coverageStr (d u : Nat) : Except String String :=
  if d + u = 0 then .error "ZeroDivisionError"
  else
    let tenths := (2000 * d + (d + u)) / (2 * (d + u))
    .ok (toString (tenths / 10) ++ "." ++ toString (tenths % 10))

/-- `str(option.default)[:50] if option.default is not None else "N/A"`. -/
def defaultStr (v : Value) : String :=
  match v with
  | .nullV => "N/A"
  | v => String.mk ((pyStr v).data.take 50)

/-- `sorted(options, key=lambda x: x.path)` (stable sort on the path). -/
def sortByPath (options : List ConfigOption) : List ConfigOption :=
  options.mergeSort (fun a b => decide (a.path ≤ b.path))

/-- One row of the structured missing-documentation table. -/
def githubRow (subchart_alias : String) (o : ConfigOption) : String :=
  let prefixed_path := subchart_alias ++ "." ++ o.path
  let desc_str := if o.description ≠ "" then o.description
                  else "*(No description available)*"
  "| `" ++ prefixed_path ++ "` | `" ++ o.type ++ "` | `" ++ defaultStr o.default ++
    "` | " ++ desc_str ++ " |\n"

/-- One bullet of the structured documented-options list. -/
def githubDocRow (subchart_alias : String) (o : ConfigOption) : String :=
  "- ✓ `" ++ subchart_alias ++ "." ++ o.path ++ "` (" ++ o.type ++ ")\n"

/-- One entry of the plain-text missing-documentation list. -/
def textRow (o : ConfigOption) : String :=
  "  - " ++ o.path ++ " (" ++ o.type ++ ")\n" ++
  (match o.default with
   | .nullV => ""
   | v => "    Default: " ++ pyStr v ++ "\n") ++
  (if o.description ≠ "" then "    Description: " ++ o.description ++ "\n"
   else "")

/-- The fixed remediation template of the structured report. -/
def actionRequired (subchart_alias : String) : String :=
  "\n### 📝 Action Required\n\n" ++
  "Please add documentation for these options in one or more of the following places:\n\n" ++
  "1. **values.yaml** - Add comments above the relevant configuration sections\n" ++
  "2. **QUICKSTART.md** - Add to the \"Common Customizations\" or \"Advanced Configuration\" sections\n" ++
  "3. **README.md** - Add to the configuration reference table\n\n" ++
  "**Important:** In our chart, kata-deploy options are under the `" ++ subchart_alias ++
  "` subchart alias.\nUsers need to use the prefixed path shown in the table above.\n\n" ++
  "#### Example Documentation Format\n\n" ++
  "For `values.yaml`:\n```yaml\n# Description of the option and its purpose\n" ++
  "# Valid values: value1 | value2 | value3\n# Default: value1\n" ++ subchart_alias ++
  ":\n  optionName: value\n```\n\n" ++
  "For markdown docs:\n```markdown\n| Parameter | Description | Default |\n" ++
  "|-----------|-------------|---------|\n| `" ++ subchart_alias ++
  ".optionName` | Description of what it does | `value` |\n```\n\n" ++
  "For `--set` examples:\n```bash\nhelm install coco oci://... \\\n  --set " ++
  subchart_alias ++ ".optionName=value\n```\n\n"

/-- `generate_report`: render the report in the selected format.  The
coverage expression is evaluated while the summary is built, so a
`ZeroDivisionError` (both lists empty) aborts either branch before any report
text exists. -/
def generate_report (kata_version : Value)
    (documented undocumented : List ConfigOption) (output_format : String)
    (subchart_alias : String) (tmp_mtime : String) : Except String String :=
  if output_format = "github" then
    match coverageStr documented.length undocumented.length with
    | .error e => .error e
    | .ok cov =>
      let header :=
        "# 📚 Kata-Deploy Documentation Validation Report\n\n" ++
        "**Kata-Deploy Version:** `" ++ pyStr kata_version ++ "`  \n" ++
        "**Validation Date:** " ++ tmp_mtime ++ "\n\n## Summary\n\n" ++
        "- ✅ **Documented Options:** " ++ toString documented.length ++ "\n" ++
        "- ❌ **Undocumented Options:** " ++ toString undocumented.length ++ "\n" ++
        "- 📊 **Coverage:** " ++ cov ++ "%\n\n"
      let middle :=
        if ¬ undocumented.isEmpty then
          "---\n\n## ⚠️ Missing Documentation\n\n" ++
          "The following configuration options from kata-deploy are **not documented** in our chart:\n\n" ++
          "| Option Path (in our chart) | Type | Default Value | Description |\n" ++
          "|----------------------------|------|---------------|-------------|\n" ++
          String.join ((sortByPath undocumented).map (githubRow subchart_alias)) ++
          actionRequired subchart_alias
        else
          "---\n\n## ✅ All Options Documented\n\n" ++
          "Great! All configuration options from kata-deploy are documented in our chart.\n\n"
      let tail :=
        if ¬ documented.isEmpty then
          "---\n\n## ✅ Documented Options (" ++ toString documented.length ++ ")\n\n" ++
          "<details>\n<summary>Click to expand list of documented options</summary>\n\n" ++
          String.join ((sortByPath documented).map (githubDocRow subchart_alias)) ++
          "\n</details>\n"
        else ""
      .ok (header ++ middle ++ tail)
  else
    match coverageStr documented.length undocumented.length with
    | .error e => .error e
    | .ok cov =>
      let header :=
        "Kata-Deploy Documentation Validation Report\n" ++
        String.mk (List.replicate 60 '=') ++ "\n\n" ++
        "Kata-Deploy Version: " ++ pyStr kata_version ++ "\n" ++
        "Documented Options: " ++ toString documented.length ++ "\n" ++
        "Undocumented Options: " ++ toString undocumented.length ++ "\n" ++
        "Coverage: " ++ cov ++ "%\n\n"
      let missing :=
        if ¬ undocumented.isEmpty then
          "Missing Documentation:\n" ++ String.mk (List.replicate 60 '-') ++ "\n" ++
          String.join ((sortByPath undocumented).map textRow)
        else ""
      .ok (header ++ missing)

/-! ## The coordinator (`main`) -/

/-- Python `for dep in deps` over the dependency list of `Chart.yaml`,
together with the loop body: the first entry whose `name` equals
`kata-deploy` yields its `version` (default `"unknown"`); a list element
without `.get` (a non-dict) raises `AttributeError`. -/
def findKataDep : List Value → Except String Value
  | [] => .ok (.strV "unknown")
  | .dictV des :: rest =>
    (match lookupV "name" des with
     | some (.strV s) =>
       if s = "kata-deploy" then
         .ok ((lookupV "version" des).getD (.strV "unknown"))
       else findKataDep rest
     | _ => findKataDep rest)
  | _ :: _ => .error "AttributeError"

/-- Iterating `chart_data.get('dependencies', [])`: lists are iterated;
iterating a nonempty string or dict yields strings, whose missing `.get`
raises `AttributeError` in the loop body; the other kinds are not iterable
(`TypeError`).  Empty strings and dicts iterate zero times. -/
def scanDeps : Value → Except String Value
  | .listV deps => findKataDep deps
  | .strV s => if s = "" then .ok (.strV "unknown") else .error "AttributeError"
  | .dictV [] => .ok (.strV "unknown")
  | .dictV (_ :: _) => .error "AttributeError"
  | _ => .error "TypeError"

/-- The version-resolution block of `main`: `kata_version` stays `"unknown"`
when `Chart.yaml` is absent; when present, `chart_data.get('dependencies',
[])` requires the loaded document to be a dict (otherwise `AttributeError`),
and the dependency list is scanned for a `kata-deploy` entry. -/
def resolveVersion : Option Value → Except String Value
  | none => .ok (.strV "unknown")
  | some (.dictV entries) =>
    scanDeps ((lookupV "dependencies" entries).getD (.listV []))
  | some _ => .error "AttributeError"

/-- The exit-status policy at the end of `main`: `sys.exit(1)` when
undocumented options exist and `--fail-on-missing` was given or the output
format is `github`; in every other case the process ends with status 0
(explicitly via `sys.exit(0)` when nothing is undocumented, implicitly by
falling off the end of `main` otherwise). -/
def exitCode (undocumented : List ConfigOption) (fail_on_missing : Bool)
    (output_format : String) : Nat :=
  if ¬ undocumented.isEmpty then
    if fail_on_missing || output_format = "github" then 1 else 0
  else 0

/-- The observable outcome of one run of the script. -/
inductive RunResult where
  /-- `sys.exit(code)` before the report stage -/
  | earlyExit (code : Nat)
  /-- an uncaught Python exception (the interpreter exits with status 1) -/
  | crashed (msg : String)
  /-- normal completion: the printed/saved report and the exit status -/
  | finished (report : String) (code : Nat)

/-- `main`, for fixed parsed arguments: resolve the version from
`Chart.yaml`, parse the upstream chart (excluding `env.hostOS`), check the
documentation under the `kata-as-coco-runtime` alias, generate the report,
and apply the exit-status policy. -/
def runMain (fail_on_missing : Bool) (output_format : String) (w : World) :
    RunResult :=
  match resolveVersion w.chartYaml with
  | .error e => .crashed e
  | .ok kata_version =>
    match parse_kata_deploy_values w kata_version ["env.hostOS"] with
    | .error code => .earlyExit code
    | .ok options =>
      let du := check_documentation (buildCorpus w.ourValues w.ourDocs)
        "kata-as-coco-runtime" options
      match generate_report kata_version du.1 du.2 output_format
        "kata-as-coco-runtime" w.tmpMtime with
      | .error e => .crashed e
      | .ok report =>
        .finished report (exitCode du.2 fail_on_missing output_format)

/-! ## Derived notions used by the statements -/

/-- The invariant of every emitted `ConfigOption`: its path is not excluded,
it is the dot-join of the chain of traversed keys, none of which begins with
the reserved `_` marker, its default is not a mapping, its recorded type is
the runtime kind of its default, and the later-pass fields are still empty. -/
def ExtractInv (exclude_options : List String) (parent_path : String)
    (o : ConfigOption) : Prop :=
  o.path ∉ exclude_options ∧
  (∃ ks, ks ≠ [] ∧ (∀ k ∈ ks, underscoreKey k = false) ∧
    o.path = joinPath parent_path ks) ∧
  o.default.isDict = false ∧
  o.type = typeName o.default ∧
  o.description = "" ∧
  o.documented_in = []

/-- Forget the field populated by the check pass.  The script mutates the
very same objects in place, so the partition claims compare options up to
`documented_in`. -/
def eraseDocIn (o : ConfigOption) : ConfigOption :=
  { o with documented_in := [] }

/-! ## Helper lemmas -/

theorem extractEntries_cons (exclude_options : List String) (key : String)
    (value : Value) (rest : List (String × Value)) (parent_path : String) :
    extractEntries exclude_options ((key, value) :: rest) parent_path =
      (if underscoreKey key then []
       else if (if parent_path = "" then key else parent_path ++ "." ++ key)
           ∈ exclude_options then []
       else
         match value with
         | .dictV _ => extract_options exclude_options value
             (if parent_path = "" then key else parent_path ++ "." ++ key)
         | _ => [{ name := key,
                   path := if parent_path = "" then key
                           else parent_path ++ "." ++ key,
                   type := typeName value, default := value }]) ++
      extractEntries exclude_options rest parent_path := by
  cases value <;> rfl

theorem extract_inv (exclude_options : List String) :
    (∀ data parent_path,
       ∀ o ∈ extract_options exclude_options data parent_path,
         ExtractInv exclude_options parent_path o) ∧
    (∀ entries parent_path,
       ∀ o ∈ extractEntries exclude_options entries parent_path,
         ExtractInv exclude_options parent_path o) := by
  refine extract_options.mutual_induct exclude_options
    (fun data parent_path =>
      ∀ o ∈ extract_options exclude_options data parent_path,
        ExtractInv exclude_options parent_path o)
    (fun entries parent_path =>
      ∀ o ∈ extractEntries exclude_options entries parent_path,
        ExtractInv exclude_options parent_path o)
    ?_ ?_ ?_ ?_
  · intro parent_path entries ih o ho
    exact ih o ho
  · intro t parent_path ht o ho
    cases t
    case dictV entries => exact absurd rfl (ht entries)
    all_goals exact absurd ho (List.not_mem_nil o)
  · intro parent_path o ho
    exact absurd ho (List.not_mem_nil o)
  · intro key value rest parent_path current_path ih1 ih2 o ho
    rw [extractEntries_cons] at ho
    rcases List.mem_append.1 ho with h | h
    · by_cases hu : underscoreKey key = true
      · rw [if_pos hu] at h
        exact absurd h (List.not_mem_nil o)
      · have hund : underscoreKey key = false := by
          revert hu; cases underscoreKey key <;> simp
        rw [if_neg hu] at h
        by_cases hexc :
            (if parent_path = "" then key else parent_path ++ "." ++ key)
              ∈ exclude_options
        · rw [if_pos hexc] at h
          exact absurd h (List.not_mem_nil o)
        · rw [if_neg hexc] at h
          cases value with
          | dictV entries2 =>
            obtain ⟨h1, ⟨ks, hks0, hksu, hksp⟩, h3⟩ := ih1 o h
            refine ⟨h1, ⟨key :: ks, by simp, ?_, ?_⟩, h3⟩
            · intro k hk
              rcases List.mem_cons.1 hk with rfl | hk
              · exact hund
              · exact hksu k hk
            · rw [hksp]
              rfl
          | nullV =>
            rcases List.mem_singleton.1 h with rfl
            exact ⟨hexc, ⟨[key], by simp,
              by intro k hk; rcases List.mem_singleton.1 hk with rfl; exact hund,
              rfl⟩, rfl, rfl, rfl, rfl⟩
          | boolV b =>
            rcases List.mem_singleton.1 h with rfl
            exact ⟨hexc, ⟨[key], by simp,
              by intro k hk; rcases List.mem_singleton.1 hk with rfl; exact hund,
              rfl⟩, rfl, rfl, rfl, rfl⟩
          | intV n =>
            rcases List.mem_singleton.1 h with rfl
            exact ⟨hexc, ⟨[key], by simp,
              by intro k hk; rcases List.mem_singleton.1 hk with rfl; exact hund,
              rfl⟩, rfl, rfl, rfl, rfl⟩
          | strV s =>
            rcases List.mem_singleton.1 h with rfl
            exact ⟨hexc, ⟨[key], by simp,
              by intro k hk; rcases List.mem_singleton.1 hk with rfl; exact hund,
              rfl⟩, rfl, rfl, rfl, rfl⟩
          | listV xs =>
            rcases List.mem_singleton.1 h with rfl
            exact ⟨hexc, ⟨[key], by simp,
              by intro k hk; rcases List.mem_singleton.1 hk with rfl; exact hund,
              rfl⟩, rfl, rfl, rfl, rfl⟩
    · exact ih2 o h

theorem firstFound_some (corpus : String) (ps : List String) (p : String)
    (h : firstFound corpus ps = some p) :
    mentioned corpus p = true ∧
    ∃ l1 l2, ps = l1 ++ p :: l2 ∧ ∀ q ∈ l1, mentioned corpus q = false := by
  induction ps with
  | nil => exact absurd h (by rw [firstFound]; exact Option.noConfusion)
  | cons a ps ih =>
    rw [firstFound] at h
    by_cases ha : mentioned corpus a = true
    · rw [if_pos ha] at h
      obtain rfl := Option.some.inj h
      exact ⟨ha, [], ps, rfl, by intro q hq; exact absurd hq (List.not_mem_nil q)⟩
    · rw [if_neg ha] at h
      obtain ⟨hm, l1, l2, rfl, hall⟩ := ih h
      refine ⟨hm, a :: l1, l2, rfl, ?_⟩
      intro q hq
      rcases List.mem_cons.1 hq with rfl | hq
      · revert ha; cases mentioned corpus q <;> simp
      · exact hall q hq

theorem firstFound_none (corpus : String) (ps : List String)
    (h : firstFound corpus ps = none) :
    ∀ q ∈ ps, mentioned corpus q = false := by
  induction ps with
  | nil => intro q hq; exact absurd hq (List.not_mem_nil q)
  | cons a ps ih =>
    rw [firstFound] at h
    by_cases ha : mentioned corpus a = true
    · rw [if_pos ha] at h
      exact absurd h Option.noConfusion
    · rw [if_neg ha] at h
      intro q hq
      rcases List.mem_cons.1 hq with rfl | hq
      · revert ha; cases mentioned corpus q <;> simp
      · exact ih h q hq

theorem eraseDocIn_checkOne (corpus subchart_alias : String) (o : ConfigOption) :
    eraseDocIn (checkOne corpus subchart_alias o).1 = eraseDocIn o := by
  unfold checkOne
  cases firstFound corpus (candidatePatterns subchart_alias o) <;> rfl

/-! ## Claim theorems -/

/-- Claim C1 (code bug): `generate_report` divides by
`len(documented) + len(undocumented)` with no zero guard, so on the
documented/undocumented partition `([], [])` — zero options extracted — it
raises `ZeroDivisionError` in either output format instead of reporting a
well-defined coverage. -/
theorem generate_report_zero_division (kata_version : Value)
    (output_format subchart_alias tmp_mtime : String) :
    generate_report kata_version [] [] output_format subchart_alias tmp_mtime
      = .error "ZeroDivisionError" := by
  unfold generate_report
  by_cases h : output_format = "github"
  · rw [if_pos h]; rfl
  · rw [if_neg h]; rfl

/-- Claim C2: on the tree `{env: {debug: false, hostOS: "ci"}}` with
exclusion set `["env.hostOS"]`, extraction produces exactly one option, with
path `env.debug`, boolean type, and default `false`. -/
theorem extract_scenario :
    extract_options ["env.hostOS"]
      (.dictV [("env", .dictV [("debug", .boolV false), ("hostOS", .strV "ci")])])
      ""
      = [{ name := "debug", path := "env.debug", type := "bool",
           default := .boolV false, description := "",
           documented_in := [] }] := rfl

/-- Claim C4: with the two admissible output formats, the exit status is `1`
exactly when undocumented options exist and either `--fail-on-missing` was
given or the format is `github`; it is `0` exactly when everything is
documented or the format is plain text without `--fail-on-missing`. -/
theorem exit_status_policy (undocumented : List ConfigOption)
    (fail_on_missing : Bool) (output_format : String)
    (hfmt : output_format = "text" ∨ output_format = "github") :
    (exitCode undocumented fail_on_missing output_format = 1 ↔
      (undocumented ≠ [] ∧
        (fail_on_missing = true ∨ output_format = "github"))) ∧
    (exitCode undocumented fail_on_missing output_format = 0 ↔
      (undocumented = [] ∨
        (fail_on_missing = false ∧ output_format = "text"))) := by
  rcases hfmt with rfl | rfl <;>
    cases undocumented <;> cases fail_on_missing <;>
    simp [exitCode]

/-- Witness for C4: no undocumented options, plain text, no
`--fail-on-missing`. -/
theorem exit_status_policy_witness :
    (exitCode [] false "text" = 1 ↔
      (([] : List ConfigOption) ≠ [] ∧
        (false = true ∨ ("text" : String) = "github"))) ∧
    (exitCode [] false "text" = 0 ↔
      (([] : List ConfigOption) = [] ∨
        (false = false ∧ ("text" : String) = "text"))) :=
  exit_status_policy [] false "text" (Or.inl rfl)

/-- Claim C5: when the chart directory lacks `values.yaml`, the run never
reaches the report stage (`finished` is impossible), and — whenever version
resolution itself does not crash first — the run is exactly `sys.exit(1)`
raised inside `parse_kata_deploy_values`. -/
theorem missing_values_fatal (fail_on_missing : Bool) (output_format : String)
    (w : World) (h : w.kataValues = none) :
    (∀ report code,
        runMain fail_on_missing output_format w ≠ .finished report code) ∧
    (∀ v, resolveVersion w.chartYaml = .ok v →
        runMain fail_on_missing output_format w = .earlyExit 1) := by
  have hparse : ∀ kv, parse_kata_deploy_values w kv ["env.hostOS"] = .error 1 := by
    intro kv
    unfold parse_kata_deploy_values
    rw [h]
  constructor
  · intro report code hcon
    unfold runMain at hcon
    cases hv : resolveVersion w.chartYaml with
    | error e => rw [hv] at hcon; exact RunResult.noConfusion hcon
    | ok v =>
      simp only [hv, hparse v] at hcon
      exact RunResult.noConfusion hcon
  · intro v hv
    unfold runMain
    simp only [hv, hparse v]

/-- Witness for C5: a world with no `values.yaml` and no `Chart.yaml`. -/
theorem missing_values_fatal_witness :
    (∀ report code,
        runMain false "text" ⟨none, none, none, none, none, [], ""⟩
          ≠ .finished report code) ∧
    (∀ v, resolveVersion (none : Option Value) = .ok v →
        runMain false "text" ⟨none, none, none, none, none, [], ""⟩
          = .earlyExit 1) :=
  missing_values_fatal false "text" ⟨none, none, none, none, none, [], ""⟩ rfl

/-- Claim C10: when the upstream `values.yaml` loads as anything but a
mapping, extraction contributes no options and `parse_kata_deploy_values`
returns an empty list without any error; the check stage then partitions
zero options into `([], [])`. -/
theorem nondict_root_extraction (w : World) (v : Value) (kata_version : Value)
    (exclude_options : List String) (corpus subchart_alias : String)
    (hv : w.kataValues = some v) (hnd : v.isDict = false) :
    parse_kata_deploy_values w kata_version exclude_options = .ok [] ∧
    check_documentation corpus subchart_alias [] = ([], []) := by
  have he : extract_options exclude_options v "" = [] := by
    cases v with
    | dictV es => simp [Value.isDict] at hnd
    | nullV => rfl
    | boolV b => rfl
    | intV n => rfl
    | strV s => rfl
    | listV xs => rfl
  refine ⟨?_, rfl⟩
  unfold parse_kata_deploy_values
  rw [hv]
  dsimp only
  rw [he]
  cases hr : w.kataReadme with
  | some s => rfl
  | none =>
    cases hb : pyTruthy kata_version with
    | true =>
      cases hg : w.githubReadme with
      | some s => rfl
      | none => rfl
    | false => rfl

/-- Witness for C10: a world whose `values.yaml` loads as `null` (an empty
file). -/
theorem nondict_root_extraction_witness :
    parse_kata_deploy_values ⟨none, some .nullV, none, none, none, [], ""⟩
      (.strV "unknown") ["env.hostOS"] = .ok [] ∧
    check_documentation "" "kata-as-coco-runtime" [] = ([], []) :=
  nondict_root_extraction ⟨none, some .nullV, none, none, none, [], ""⟩
    .nullV (.strV "unknown") ["env.hostOS"] "" "kata-as-coco-runtime" rfl rfl

/-- Claim C3: the documentation check returns two lists that exactly
partition its input option list — comparing options up to the
`documented_in` field the pass itself populates, the concatenation of the two
output lists is a permutation of the input, so every option lands in exactly
one list, none is dropped and none is duplicated. -/
theorem check_documentation_partition (corpus subchart_alias : String)
    (options : List ConfigOption) :
    (((check_documentation corpus subchart_alias options).1 ++
      (check_documentation corpus subchart_alias options).2).map
        eraseDocIn).Perm
      (options.map eraseDocIn) := by
  induction options with
  | nil => rw [check_documentation]; exact List.Perm.refl _
  | cons o rest ih =>
    rw [check_documentation]
    rcases hdu : check_documentation corpus subchart_alias rest with ⟨d, u⟩
    rw [hdu] at ih
    rcases hco : checkOne corpus subchart_alias o with ⟨o2, b⟩
    have ho2 : eraseDocIn o2 = eraseDocIn o := by
      have h2 := eraseDocIn_checkOne corpus subchart_alias o
      rw [hco] at h2
      exact h2
    cases b with
    | true =>
      simp only [hdu, hco, List.cons_append, List.map_cons, ho2]
      exact List.Perm.cons _ ih
    | false =>
      simp only [hdu, hco, List.map_append, List.map_cons]
      refine List.Perm.trans List.perm_middle ?_
      rw [ho2]
      refine List.Perm.cons _ ?_
      rw [← List.map_append]
      exact ih

/-- Claim C6: for every option the check builds the candidate list in the
fixed priority order (namespace-prefixed path, bare path, bare name); a
candidate counts as mentioned exactly when one of the five match forms
(comment, YAML key, backticks, `--set` example, table cell) fires on the
lowercased corpus; the option is documented exactly when some candidate is
mentioned; and the candidate recorded in `documented_in` is the first
mentioned one — every earlier candidate is not mentioned, so the search
stopped there. -/
theorem check_candidate_priority (corpus subchart_alias : String)
    (o : ConfigOption) :
    candidatePatterns subchart_alias o =
      [subchart_alias ++ "." ++ o.path, o.path, o.name] ∧
    (∀ p : String, mentioned corpus p = true ↔
      (commentMatch (lowerChars p) (lowerChars corpus) = true ∨
       keyMatch (lowerChars p) (lowerChars corpus) = true ∨
       backtickMatch (lowerChars p) (lowerChars corpus) = true ∨
       setMatch (lowerChars p) (lowerChars corpus) = true ∨
       tableMatch (lowerChars p) (lowerChars corpus) = true)) ∧
    ((checkOne corpus subchart_alias o).2 = true ↔
      ∃ p ∈ candidatePatterns subchart_alias o, mentioned corpus p = true) ∧
    (∀ p, firstFound corpus (candidatePatterns subchart_alias o) = some p →
      (checkOne corpus subchart_alias o).1.documented_in =
        o.documented_in ++ [p] ∧
      mentioned corpus p = true ∧
      ∃ l1 l2, candidatePatterns subchart_alias o = l1 ++ p :: l2 ∧
        ∀ q ∈ l1, mentioned corpus q = false) := by
  refine ⟨rfl, ?_, ?_, ?_⟩
  · intro p
    simp only [mentioned, Bool.or_eq_true]
    tauto
  · unfold checkOne
    cases hff : firstFound corpus (candidatePatterns subchart_alias o) with
    | none =>
      simp only []
      constructor
      · intro hco
        exact absurd hco Bool.noConfusion
      · rintro ⟨p, hp, hm⟩
        have hfalse := firstFound_none corpus _ hff p hp
        rw [hfalse] at hm
        exact absurd hm Bool.noConfusion
    | some p0 =>
      obtain ⟨hm, l1, l2, heq, -⟩ := firstFound_some corpus _ p0 hff
      refine iff_of_true rfl ⟨p0, ?_, hm⟩
      rw [heq]
      exact List.mem_append_right l1 (List.mem_cons_self p0 l2)
  · intro p hp
    obtain ⟨hm, l1, l2, heq, hall⟩ := firstFound_some corpus _ p hp
    refine ⟨?_, hm, l1, l2, heq, hall⟩
    unfold checkOne
    rw [hp]

/-- Witness for C6: the spec's comment-rule scenario; the first candidate —
the namespace-prefixed path — matches the comment form and is recorded. -/
theorem check_candidate_priority_witness :
    (checkOne "# kata-as-coco-runtime.env.debug enables verbose logs"
        "kata-as-coco-runtime"
        { name := "debug", path := "env.debug", type := "bool",
          default := .boolV false }).1.documented_in =
      [] ++ ["kata-as-coco-runtime.env.debug"] :=
  ((check_candidate_priority
      "# kata-as-coco-runtime.env.debug enables verbose logs"
      "kata-as-coco-runtime"
      { name := "debug", path := "env.debug", type := "bool",
        default := .boolV false }).2.2.2
    "kata-as-coco-runtime.env.debug" rfl).1

/-- Claim C7: no extracted option has a path in the exclusion set, and every
extracted option's path is the dot-join of the traversed keys, none of which
begins with the reserved `_` marker — excluded paths and `_`-keys are never
recursed into, so nothing below them is emitted either. -/
theorem extract_no_excluded_no_marker (exclude_options : List String)
    (data : Value) (o : ConfigOption)
    (ho : o ∈ extract_options exclude_options data "") :
    o.path ∉ exclude_options ∧
    ∃ ks, ks ≠ [] ∧ (∀ k ∈ ks, underscoreKey k = false) ∧
      o.path = joinPath "" ks := by
  have h := (extract_inv exclude_options).1 data "" o ho
  unfold ExtractInv at h
  exact ⟨h.1, h.2.1⟩

/-- Witness for C7: the option extracted in the C2 scenario. -/
theorem extract_no_excluded_no_marker_witness :
    ("env.debug" : String) ∉ ["env.hostOS"] ∧
    ∃ ks, ks ≠ [] ∧ (∀ k ∈ ks, underscoreKey k = false) ∧
      ("env.debug" : String) = joinPath "" ks :=
  extract_no_excluded_no_marker ["env.hostOS"]
    (.dictV [("env", .dictV [("debug", .boolV false), ("hostOS", .strV "ci")])])
    { name := "debug", path := "env.debug", type := "bool",
      default := .boolV false }
    (List.mem_singleton.mpr rfl)

/-- Claim C8: every extracted option is a leaf — its default is never a
mapping, its recorded type is the runtime kind of its default, and that type
is never the mapping kind. -/
theorem extract_leaf_type (exclude_options : List String) (data : Value)
    (parent_path : String) (o : ConfigOption)
    (ho : o ∈ extract_options exclude_options data parent_path) :
    o.default.isDict = false ∧ o.type = typeName o.default ∧
      o.type ≠ "dict" := by
  have h := (extract_inv exclude_options).1 data parent_path o ho
  unfold ExtractInv at h
  obtain ⟨-, -, hdict, htype, -, -⟩ := h
  refine ⟨hdict, htype, ?_⟩
  rw [htype]
  cases hd : o.default with
  | dictV es => rw [hd] at hdict; exact absurd hdict (by simp [Value.isDict])
  | nullV => simp [typeName]
  | boolV b => simp [typeName]
  | intV n => simp [typeName]
  | strV s => simp [typeName]
  | listV xs => simp [typeName]

/-- Witness for C8: the option extracted in the C2 scenario. -/
theorem extract_leaf_type_witness :
    Value.isDict (.boolV false) = false ∧
    ("bool" : String) = typeName (.boolV false) ∧
    ("bool" : String) ≠ "dict" :=
  extract_leaf_type ["env.hostOS"]
    (.dictV [("env", .dictV [("debug", .boolV false), ("hostOS", .strV "ci")])])
    ""
    { name := "debug", path := "env.debug", type := "bool",
      default := .boolV false }
    (List.mem_singleton.mpr rfl)

/-- Counterexample to Claim C9 as stated: a `Chart.yaml` that exists but
loads as `null` (for instance an empty file) is a state of the manifest on
which version resolution raises `AttributeError`
(`chart_data.get('dependencies', [])` on `None`), so resolution is not
fatal-free for every state of the manifest file. -/
theorem resolveVersion_null_crashes :
    resolveVersion (some .nullV) = .error "AttributeError" := rfl

theorem findKataDep_unknown (deps : List Value)
    (h : ∀ d ∈ deps, ∃ des, d = .dictV des ∧
        ∀ s, lookupV "name" des = some (.strV s) → s ≠ "kata-deploy") :
    findKataDep deps = .ok (.strV "unknown") := by
  induction deps with
  | nil => rfl
  | cons d rest ih =>
    have ihrest := ih (fun d2 hd2 => h d2 (List.mem_cons_of_mem d hd2))
    obtain ⟨des, rfl, hname⟩ := h d (List.mem_cons_self d rest)
    rw [findKataDep]
    cases hn : lookupV "name" des with
    | none => exact ihrest
    | some v =>
      cases v with
      | strV s => dsimp only; rw [if_neg (hname s hn)]; exact ihrest
      | nullV => exact ihrest
      | boolV b => exact ihrest
      | intV n => exact ihrest
      | listV xs => exact ihrest
      | dictV es => exact ihrest

/-- Claim C9, amended: version resolution yields the `"unknown"` sentinel and
does not fail when the manifest is absent, or when it loads as a mapping
whose dependency list is absent, or is a list of mappings containing no entry
named `kata-deploy`.  (The original claim's "for every state of the manifest
file" fails: a manifest that loads as a non-mapping crashes, see the
counterexample.) -/
theorem resolveVersion_unknown (chart : Option Value)
    (h : chart = none ∨
      ∃ entries, chart = some (.dictV entries) ∧
        (lookupV "dependencies" entries = none ∨
         ∃ deps, lookupV "dependencies" entries = some (.listV deps) ∧
           ∀ d ∈ deps, ∃ des, d = .dictV des ∧
             ∀ s, lookupV "name" des = some (.strV s) →
               s ≠ "kata-deploy")) :
    resolveVersion chart = .ok (.strV "unknown") := by
  rcases h with rfl | ⟨entries, rfl, hdeps⟩
  · rfl
  · rw [resolveVersion]
    rcases hdeps with hnone | ⟨deps, hsome, hall⟩
    · rw [hnone]; rfl
    · rw [hsome]
      exact findKataDep_unknown deps hall

/-- Witness for C9 (amended): a manifest with an empty dependency list. -/
theorem resolveVersion_unknown_witness :
    resolveVersion (some (.dictV [("dependencies", .listV [])])) =
      .ok (.strV "unknown") :=
  resolveVersion_unknown (some (.dictV [("dependencies", .listV [])]))
    (Or.inr ⟨[("dependencies", .listV [])], rfl,
      Or.inr ⟨[], rfl, fun d hd => absurd hd (List.not_mem_nil d)⟩⟩)

end KataValidate
